import Mathlib

/-!
Verification development for the upload-to-asset pipeline of the
learn-file-storage-s3-golang-starter repository.

The Go source is embedded shallowly:
* `database.Video` becomes the structure `Video` (UUIDs become `Nat`,
  `time.Time` becomes `Nat`).
* Handlers become pure functions from an environment of collaborator
  results (auth, record store, filesystem, subprocesses, object store)
  to a response together with an ordered trace of effect events.
* Go `float64` aspect arithmetic is embedded over `ℚ`; all constants of
  the source (9.0/16.0, 16.0/9.0, 0.05) are exactly representable.
* Fallible Go functions returning `(T, error)` become `Except`/`Option`.
-/

namespace Tubely

/-- Embedding of `database.Video` (the fields the pipeline touches):
`id` and `userID` model the UUIDs, `updatedAt` models the `time.Time`
field as an abstract timestamp. -/
structure Video where
  id : Nat
  userID : Nat
  thumbnailURL : Option String
  videoURL : Option String
  updatedAt : Nat
  deriving Repr, DecidableEq

/-- Effect events emitted by the handlers, in program order.
`createLocal`/`writeLocal`/`removeLocal` are local-filesystem effects
(`os.Create`, `os.CreateTemp`, `io.Copy`, ffmpeg writing its output,
`os.Remove`); `dbGet`/`dbUpdate` are record-store calls
(`cfg.db.GetVideo`, `cfg.db.UpdateVideo`, the event carrying the record
passed to the call); `s3Put` is `PutObject`; `presign` is
`PresignGetObject`, carrying the expiry in minutes; `formRead` is the
multipart body read performed by `r.FormFile`. -/
inductive Ev where
  | dbGet (videoID : Nat)
  | formRead
  | createLocal (path : String)
  | writeLocal (path : String)
  | removeLocal (path : String)
  | s3Put (bucket key contentType : String)
  | dbUpdate (v : Video)
  | presign (bucket key : String) (expireMinutes : Nat)
  deriving Repr, DecidableEq

/-- HTTP responses of the handlers: `badRequest` models
`respondWithError` with status 400, `unauthorized` status 401,
`internalError` status 500, and `okVideo` models `respondWithJSON`
with status 200 and the record. Messages paraphrase the source text. -/
inductive Response where
  | badRequest (msg : String)
  | unauthorized (msg : String)
  | internalError (msg : String)
  | okVideo (v : Video)
  deriving Repr, DecidableEq

/-- Modelled from Go's standard-library `strings.Split` (a collaborator,
not part of the repository source) restricted to a one-character
separator: the input is cut at every occurrence of `sep`; splitting the
empty list yields `[[]]`, matching `strings.Split("", sep) == [""]`. -/
def goSplit (sep : Char) : List Char → List (List Char)
  | [] => [[]]
  | c :: rest =>
    if c = sep then [] :: goSplit sep rest
    else
      match goSplit sep rest with
      | [] => [[c]]
      | h :: t => (c :: h) :: t

/-- `strings.Split(s, ",")` lifted to `String`, as used by
`dbVideoToSignedVideo`. -/
def splitRef (s : String) : List String :=
  (goSplit ',' s.data).map String.mk

/-- Encoding of the composite object reference, from
`fmt.Sprintf("%s,%s", cfg.s3Bucket, s3FileKey)` in `handlerUploadVideo`. -/
def encodeRef (bucket key : String) : String :=
  bucket ++ "," ++ key

/-- Decoding of the composite object reference, extracted from
`dbVideoToSignedVideo`: split on every comma; exactly two parts yield
the `(bucket, key)` pair, any other shape is the format error `none`. -/
def decodeRef (s : String) : Option (String × String) :=
  match splitRef s with
  | [b, k] => some (b, k)
  | _ => none

/-- Failure causes of `dbVideoToSignedVideo`: `badFormat` is the
`"video URL is not in the expected format: %s"` error, `presignFailed`
wraps a `generatePresignedURL` failure. -/
inductive SignError where
  | badFormat (url : String)
  | presignFailed
  deriving Repr, DecidableEq

/-- Embedding of `generatePresignedURL`: the S3 presign client is the
oracle `presignF`, taking bucket, key and the expiry in minutes. The
source always passes `10*time.Minute` from `dbVideoToSignedVideo`. -/
def generatePresignedURL (presignF : String → String → Nat → Option String)
    (bucket key : String) (expireMinutes : Nat) :
    Except String String × List Ev :=
  match presignF bucket key expireMinutes with
  | none => (.error "could not generate presigned URL", [Ev.presign bucket key expireMinutes])
  | some url => (.ok url, [Ev.presign bucket key expireMinutes])

/-- Embedding of `(cfg *apiConfig) dbVideoToSignedVideo`: a nil
`VideoURL` passes the record through; otherwise the stored string is
split on commas, a slice length other than two is the format error, and
the two parts are presigned for 10 minutes, replacing `videoURL` in the
returned record only. The event list is the trace of collaborator calls
the function makes. -/
def dbVideoToSignedVideo (presignF : String → String → Nat → Option String)
    (video : Video) : Except SignError Video × List Ev :=
  match video.videoURL with
  | none => (.ok video, [])
  | some url =>
    match splitRef url with
    | [videoBucket, videoKey] =>
      match generatePresignedURL presignF videoBucket videoKey 10 with
      | (.error _, evs) => (.error .presignFailed, evs)
      | (.ok presignedURL, evs) =>
        (.ok { video with videoURL := some presignedURL }, evs)
    | _ => (.error (.badFormat url), [])

/-- Outcome of the `ffprobe` invocation and JSON decoding in
`getVideoAspectRatio`, everything up to the stream geometry: process
failure, unparseable output, an empty `streams` array, or the first
stream's width and height. -/
inductive ProbeResult where
  | procErr (msg : String)
  | parseErr (msg : String)
  | noStreams
  | ok (width height : Int)
  deriving Repr, DecidableEq

/-- Classification tail of `getVideoAspectRatio` (the source lines from
`aspectRatio := width / height` on), over `ℚ` in place of `float64`:
within 0.05 of 9/16 gives "9:16", else within 0.05 of 16/9 gives
"16:9", else "other". -/
def classifyAspect (r : ℚ) : String :=
  let vertical : ℚ := 9 / 16
  let horizontal : ℚ := 16 / 9
  let tolerance : ℚ := 5 / 100
  if vertical - tolerance ≤ r ∧ r ≤ vertical + tolerance then "9:16"
  else if horizontal - tolerance ≤ r ∧ r ≤ horizontal + tolerance then "16:9"
  else "other"

/-- Embedding of `getVideoAspectRatio`: each failure of the probe stage
keeps its distinct message from the source; with geometry in hand,
height zero is an error, otherwise the ratio is classified. -/
def getVideoAspectRatio (probe : ProbeResult) : Except String String :=
  match probe with
  | .procErr m => .error ("ffprobe command failed: " ++ m)
  | .parseErr m => .error ("could not parse ffprobe output: " ++ m)
  | .noStreams => .error "no video streams found"
  | .ok width height =>
    if height = 0 then .error "video height is zero, cannot determine aspect ratio"
    else .ok (classifyAspect ((width : ℚ) / (height : ℚ)))

/-- The `switch aspectRatio` statement of `handlerUploadVideo` choosing
the object-key path prefix. -/
def aspectDirectory (aspect : String) : String :=
  if aspect = "9:16" then "portrait"
  else if aspect = "16:9" then "landscape"
  else "other"

/-- Failure causes of `processVideoForFastStart`, one constructor per
`fmt.Errorf` site of the source: `processFailed` is
`"couldn't process video: %s, %v"` carrying the captured standard-error
text and the exec error, `statFailed` is
`"couldn't stat processed file: %v"`, `emptyOutput` is
`"processed file is empty"`. -/
inductive RemuxError where
  | processFailed (stderr execErr : String)
  | statFailed (statErr : String)
  | emptyOutput
  deriving Repr, DecidableEq

/-- The error text each `RemuxError` renders to, following the
`fmt.Errorf` format strings of the source (apostrophes elided). -/
def RemuxError.render : RemuxError → String
  | .processFailed stderr execErr => "could not process video: " ++ stderr ++ ", " ++ execErr
  | .statFailed statErr => "could not stat processed file: " ++ statErr
  | .emptyOutput => "processed file is empty"

/-- Embedding of `processVideoForFastStart`. The ffmpeg subprocess is
an oracle: `runOk` is whether `cmd.Run()` returned nil, `stderr` the
captured error stream, `execErr` the text of a non-nil run error,
`outSize` the result of `os.Stat` on the output path (`none` when the
file does not exist, `some n` its size), `statErr` the text of a stat
failure. The output path is the input path with the `.processing`
suffix appended. -/
def processVideoForFastStart (inputFilePath : String) (runOk : Bool)
    (stderr execErr statErr : String) (outSize : Option Nat) :
    Except RemuxError String :=
  let processedFilePath := inputFilePath ++ ".processing"
  if !runOk then .error (.processFailed stderr execErr)
  else
    match outSize with
    | none => .error (.statFailed statErr)
    | some size => if size = 0 then .error .emptyOutput else .ok processedFilePath

/-- The media-type part of a Content-Type header: the characters
before the first semicolon, with surrounding spaces dropped,
lower-cased. -/
def mediaTypeBase (l : List Char) : List Char :=
  ((((l.takeWhile (fun c => c ≠ ';')).dropWhile (fun c => c = ' ')).reverse.dropWhile
    (fun c => c = ' ')).reverse).map Char.toLower

/-- Modelled from Go's standard-library `mime.ParseMediaType` (a
collaborator, not repository source), restricted to what the video
handler needs: the media type is the part of the header before the
first semicolon, trimmed and lower-cased; an empty result is a parse
error. Parameter values are not used by the handler and are omitted. -/
def parseMediaType (s : String) : Option String :=
  let base := String.mk (mediaTypeBase s.data)
  if base = "" then none else some base

/-- The content-type gate of `handlerUploadThumbnail`: the raw header
string must be non-empty and exactly `image/jpeg` or `image/png`; there
is no media-type parsing on this path. -/
def thumbnailContentTypeAccepted (mediaType : String) : Bool :=
  if mediaType = "" then false
  else if mediaType ≠ "image/jpeg" ∧ mediaType ≠ "image/png" then false
  else true

/-- The content-type gate of `handlerUploadVideo`: the header is parsed
by `mime.ParseMediaType` and the resulting media type must be exactly
`video/mp4`. -/
def videoContentTypeAccepted (header : String) : Bool :=
  match parseMediaType header with
  | none => false
  | some mediaType => mediaType = "video/mp4"

/-- Modelled from Go's standard-library `path/filepath.Join` (a
collaborator), restricted to the inputs the handler produces: two
non-empty relative segments, joined with a slash. -/
def filepathJoin (dir name : String) : String :=
  dir ++ "/" ++ name

/-- The immutable `apiConfig` state the handlers read: the S3 bucket
name, the asset-URL and asset-disk-path derivations (`getAssetURL`,
`getAssetDiskPath`, collaborator code outside the given source), and
the S3 presign client as an oracle function (bucket, key, expiry in
minutes). -/
structure Config where
  s3Bucket : String
  assetURL : String → String
  assetDiskPath : String → String
  presignF : String → String → Nat → Option String

/-- Collaborator outcomes for one `handlerUploadThumbnail` request:
`videoIDParse` is `uuid.Parse` of the path value, `bearerToken` is
`auth.GetBearerToken`, `jwtUserID` is `auth.ValidateJWT`, `parseForm`
and `formFile` are the success of `ParseMultipartForm` and `FormFile`,
`contentType` is the part's raw Content-Type header, `assetPath` the
random path from `getAssetPath`, `createOk`/`copyOk` the success of
`os.Create` and `io.Copy`, `getVideo` the record-store fetch,
`updateOk` the success of `UpdateVideo`, `now` the `time.Now()`
timestamp. -/
structure ThumbEnv where
  videoIDParse : Option Nat
  bearerToken : Option String
  jwtUserID : Option Nat
  parseForm : Bool
  formFile : Bool
  contentType : String
  assetPath : String
  createOk : Bool
  copyOk : Bool
  getVideo : Option Video
  updateOk : Bool
  now : Nat

/-- Embedding of `(cfg *apiConfig) handlerUploadThumbnail`, following
the source's statement order exactly: parse ID, bearer token, JWT,
multipart form, form file, content-type gate, create and write the
asset file on disk, fetch the record, ownership check, set
`ThumbnailURL` and `UpdatedAt`, persist, respond. The second component
is the ordered trace of effect events. -/
def handlerUploadThumbnail (cfg : Config) (env : ThumbEnv) :
    Response × List Ev :=
  match env.videoIDParse with
  | none => (.badRequest "Invalid ID", [])
  | some videoID =>
  match env.bearerToken with
  | none => (.unauthorized "missing JWT", [])
  | some _ =>
  match env.jwtUserID with
  | none => (.unauthorized "invalid JWT", [])
  | some userID =>
  if !env.parseForm then (.badRequest "could not parse form", [])
  else if !env.formFile then (.badRequest "could not get file", [])
  else
  let mediaType := env.contentType
  if mediaType = "" then (.badRequest "Missing Content-Type for thumbnail", [Ev.formRead])
  else if mediaType ≠ "image/jpeg" ∧ mediaType ≠ "image/png" then
    (.badRequest "Invalid file type", [Ev.formRead])
  else
  let assetDiskPath := cfg.assetDiskPath env.assetPath
  if !env.createOk then (.internalError "could not create file on server", [Ev.formRead])
  else if !env.copyOk then
    (.internalError "could not save file", [Ev.formRead, Ev.createLocal assetDiskPath])
  else
  let evs := [Ev.formRead, Ev.createLocal assetDiskPath, Ev.writeLocal assetDiskPath]
  match env.getVideo with
  | none => (.internalError "could not get video from database", evs ++ [Ev.dbGet videoID])
  | some video =>
  if video.userID ≠ userID then
    (.unauthorized "User is not the owner of the video", evs ++ [Ev.dbGet videoID])
  else
  let video1 : Video :=
    { video with thumbnailURL := some (cfg.assetURL env.assetPath), updatedAt := env.now }
  if !env.updateOk then
    (.internalError "could not update video in database",
      evs ++ [Ev.dbGet videoID, Ev.dbUpdate video1])
  else
    (.okVideo video1, evs ++ [Ev.dbGet videoID, Ev.dbUpdate video1])

/-- Collaborator outcomes for one `handlerUploadVideo` request. Fields
through `getVideo` mirror `ThumbEnv`; `formFile` is `r.FormFile`,
`contentType` the part's raw Content-Type header, `tempName` the name
of the temporary file when `os.CreateTemp` succeeds, `copyOk`/`seekOk`
the success of `io.Copy` and `Seek`, `probe` the ffprobe outcome,
`assetPath` the random key from `getAssetPath`, `remuxRunOk` whether
the ffmpeg `cmd.Run()` returned nil, `remuxStderr` its captured error
stream, `remuxExecErr` the text of a run failure, `remuxOut` the output
file ffmpeg left on disk (`none` if not created, `some n` its size,
which is also what `os.Stat` reports), `remuxStatErr` the text of a
stat failure, `openOk` the success of opening the processed file,
`putOk` the success of `PutObject`, `updateOk` the success of
`UpdateVideo`. -/
structure VideoEnv where
  videoIDParse : Option Nat
  bearerToken : Option String
  jwtUserID : Option Nat
  getVideo : Option Video
  formFile : Bool
  contentType : String
  tempName : Option String
  copyOk : Bool
  seekOk : Bool
  probe : ProbeResult
  assetPath : String
  remuxRunOk : Bool
  remuxStderr : String
  remuxExecErr : String
  remuxOut : Option Nat
  remuxStatErr : String
  openOk : Bool
  putOk : Bool
  updateOk : Bool

/-- Embedding of `(cfg *apiConfig) handlerUploadVideo` from the source
with the aspect/fast-start pipeline, following its statement order:
parse ID, bearer token, JWT, record fetch, ownership check, form file,
media-type parse and gate, temp-file staging (with deferred close and
remove), copy, seek, aspect probe and classification, key derivation,
fast-start remux (with deferred remove of its output, registered only
on remux success), open, S3 put, record update, presign for the
response. Each early return appends the `removeLocal` events of the
defers registered at that point; ffmpeg's creation of the `.processing`
file is a `createLocal` event whenever `remuxOut` is `some`. -/
def handlerUploadVideo (cfg : Config) (env : VideoEnv) :
    Response × List Ev :=
  match env.videoIDParse with
  | none => (.badRequest "Invalid ID", [])
  | some videoID =>
  match env.bearerToken with
  | none => (.unauthorized "missing JWT", [])
  | some _ =>
  match env.jwtUserID with
  | none => (.unauthorized "invalid JWT", [])
  | some userID =>
  match env.getVideo with
  | none => (.internalError "could not get video from database", [Ev.dbGet videoID])
  | some video =>
  if video.userID ≠ userID then
    (.unauthorized "User is not the owner of the video", [Ev.dbGet videoID])
  else
  if !env.formFile then (.badRequest "could not parse video form", [Ev.dbGet videoID])
  else
  let evs0 := [Ev.dbGet videoID, Ev.formRead]
  match parseMediaType env.contentType with
  | none => (.badRequest "could not parse media type", evs0)
  | some mediaType =>
  if mediaType ≠ "video/mp4" then (.badRequest "Invalid media type", evs0)
  else
  match env.tempName with
  | none => (.internalError "could not create temporary video file", evs0)
  | some tempName =>
  let evs1 := evs0 ++ [Ev.createLocal tempName]
  if !env.copyOk then
    (.internalError "could not save video", evs1 ++ [Ev.removeLocal tempName])
  else
  let evs2 := evs1 ++ [Ev.writeLocal tempName]
  if !env.seekOk then
    (.internalError "could not reset file pointer", evs2 ++ [Ev.removeLocal tempName])
  else
  match getVideoAspectRatio env.probe with
  | .error _ =>
    (.internalError "could not get video aspect ratio", evs2 ++ [Ev.removeLocal tempName])
  | .ok aspect =>
  let directory := aspectDirectory aspect
  let s3FileKey := filepathJoin directory env.assetPath
  let processedFilePath := tempName ++ ".processing"
  let evs3 := evs2 ++
    (match env.remuxOut with
     | some _ => [Ev.createLocal processedFilePath]
     | none => [])
  match processVideoForFastStart tempName env.remuxRunOk env.remuxStderr
      env.remuxExecErr env.remuxStatErr env.remuxOut with
  | .error _ =>
    (.internalError "could not process video for fast start", evs3 ++ [Ev.removeLocal tempName])
  | .ok processedPath =>
  if !env.openOk then
    (.internalError "could not open processed video file",
      evs3 ++ [Ev.removeLocal processedPath, Ev.removeLocal tempName])
  else
  if !env.putOk then
    (.internalError "could not upload video to S3",
      evs3 ++ [Ev.s3Put cfg.s3Bucket s3FileKey mediaType,
        Ev.removeLocal processedPath, Ev.removeLocal tempName])
  else
  let evs4 := evs3 ++ [Ev.s3Put cfg.s3Bucket s3FileKey mediaType]
  let s3VideoURL := encodeRef cfg.s3Bucket s3FileKey
  let video1 : Video := { video with videoURL := some s3VideoURL }
  if !env.updateOk then
    (.internalError "could not update video in database",
      evs4 ++ [Ev.dbUpdate video1, Ev.removeLocal processedPath, Ev.removeLocal tempName])
  else
  let evs5 := evs4 ++ [Ev.dbUpdate video1]
  match dbVideoToSignedVideo cfg.presignF video1 with
  | (.error _, sevs) =>
    (.internalError "could not convert video to signed video",
      evs5 ++ sevs ++ [Ev.removeLocal processedPath, Ev.removeLocal tempName])
  | (.ok signedVideo, sevs) =>
    (.okVideo signedVideo,
      evs5 ++ sevs ++ [Ev.removeLocal processedPath, Ev.removeLocal tempName])

/-- A local file was created during the request and never removed, so
it remains on local storage after the request completes. In every trace
the handlers produce, each path is created at most once and removed at
most once, so this is exactly "the file remains". -/
def fileRemains (evs : List Ev) (p : String) : Prop :=
  Ev.createLocal p ∈ evs ∧ Ev.removeLocal p ∉ evs

/-- A concrete configuration used to instantiate the theorems: the
presign client always succeeds with the URL "signed-url". -/
def cfgEx : Config :=
  { s3Bucket := "tubely-bucket"
    assetURL := fun p => "http://localhost:8091/assets/" ++ p
    assetDiskPath := fun p => "assets/" ++ p
    presignF := fun _ _ _ => some "signed-url" }

/-- A concrete pre-existing record owned by user 1, last updated at
time 42, with no thumbnail and no video uploaded yet. -/
def video0 : Video :=
  { id := 7, userID := 1, thumbnailURL := none, videoURL := none, updatedAt := 42 }

/-- A thumbnail request in which every collaborator succeeds but the
authenticated user (2) is not the record owner (1). -/
def thumbEnvNonOwner : ThumbEnv :=
  { videoIDParse := some 7, bearerToken := some "tok", jwtUserID := some 2
    parseForm := true, formFile := true, contentType := "image/png"
    assetPath := "abc.png", createOk := true, copyOk := true
    getVideo := some video0, updateOk := true, now := 99 }

/-- The same thumbnail request issued by the record owner. -/
def thumbEnvOwner : ThumbEnv :=
  { thumbEnvNonOwner with jwtUserID := some 1 }

/-- A video request by the owner in which every collaborator succeeds:
a 9x16 stream, a non-empty remux output, and S3, record store and
presigner all succeeding. -/
def videoEnvOk : VideoEnv :=
  { videoIDParse := some 7, bearerToken := some "tok", jwtUserID := some 1
    getVideo := some video0, formFile := true, contentType := "video/mp4"
    tempName := some "tmp-upload.mp4", copyOk := true, seekOk := true
    probe := .ok 9 16, assetPath := "abc.mp4", remuxRunOk := true
    remuxStderr := "", remuxExecErr := "", remuxOut := some 5
    remuxStatErr := "", openOk := true, putOk := true, updateOk := true }

/-- The same video request issued by a non-owner (user 2). -/
def videoEnvNonOwner : VideoEnv :=
  { videoEnvOk with jwtUserID := some 2 }

/-- The same video request, but ffmpeg exits successfully while
leaving an empty output file on disk. -/
def videoEnvRemuxEmpty : VideoEnv :=
  { videoEnvOk with remuxOut := some 0 }

/-- The same video request, but the object-store upload fails after a
successful remux. -/
def videoEnvPutFail : VideoEnv :=
  { videoEnvOk with putOk := false }

/-- Rebuilding a string from its character list is the identity. -/
theorem mk_data (s : String) : String.mk s.data = s := by
  cases s
  rfl

/-- Characters of a concatenation are the concatenated characters. -/
theorem data_append (a b : String) : (a ++ b).data = a.data ++ b.data := by
  cases a
  cases b
  rfl

/-- Splitting a comma-free character list yields that single segment. -/
theorem goSplit_eq_of_not_mem {a : List Char} (h : ',' ∉ a) :
    goSplit ',' a = [a] := by
  induction a with
  | nil => rfl
  | cons c rest ih =>
    have hc : ¬ c = ',' := fun e => h (e ▸ List.mem_cons_self c rest)
    have hr : ',' ∉ rest := fun hm => h (List.mem_cons_of_mem _ hm)
    simp [goSplit, hc, ih hr]

/-- Splitting peels off a comma-free segment before a comma. -/
theorem goSplit_append_comma {a : List Char} (b : List Char) (h : ',' ∉ a) :
    goSplit ',' (a ++ ',' :: b) = a :: goSplit ',' b := by
  induction a with
  | nil => simp [goSplit]
  | cons c rest ih =>
    have hc : ¬ c = ',' := fun e => h (e ▸ List.mem_cons_self c rest)
    have hr : ',' ∉ rest := fun hm => h (List.mem_cons_of_mem _ hm)
    simp [goSplit, hc, ih hr]

/-- Splitting an encoded composite reference with comma-free parts
recovers exactly the two parts. -/
theorem splitRef_encodeRef {bucket key : String} (hb : ',' ∉ bucket.data)
    (hk : ',' ∉ key.data) :
    splitRef (encodeRef bucket key) = [bucket, key] := by
  have hdata : (encodeRef bucket key).data = bucket.data ++ ',' :: key.data := by
    simp [encodeRef, data_append]
  simp [splitRef, hdata, goSplit_append_comma _ hb, goSplit_eq_of_not_mem hk, mk_data]

/-- The orientation directory is always one of the three buckets. -/
theorem aspectDirectory_mem (s : String) :
    aspectDirectory s = "portrait" ∨ aspectDirectory s = "landscape" ∨
      aspectDirectory s = "other" := by
  unfold aspectDirectory
  split_ifs <;> simp

/-- The orientation directory never contains a comma. -/
theorem comma_not_mem_aspectDirectory (s : String) :
    ',' ∉ (aspectDirectory s).data := by
  rcases aspectDirectory_mem s with h | h | h <;> rw [h] <;> decide

/-- Joining two comma-free path segments yields a comma-free path. -/
theorem comma_not_mem_join {d p : String} (hd : ',' ∉ d.data)
    (hp : ',' ∉ p.data) : ',' ∉ (filepathJoin d p).data := by
  intro hmem
  rw [filepathJoin, data_append, data_append] at hmem
  rcases List.mem_append.mp hmem with hm | hm
  · rcases List.mem_append.mp hm with hm2 | hm2
    · exact hd hm2
    · exact absurd hm2 (by decide)
  · exact hp hm

/-- A ratio within 0.05 of 9/16 classifies as "9:16". -/
theorem classifyAspect_portrait {r : ℚ} (h : |r - 9 / 16| ≤ 5 / 100) :
    classifyAspect r = "9:16" := by
  rw [abs_le] at h
  obtain ⟨h1, h2⟩ := h
  simp only [classifyAspect]
  rw [if_pos ⟨by linarith, by linarith⟩]

/-- A ratio within 0.05 of 16/9 classifies as "16:9". -/
theorem classifyAspect_landscape {r : ℚ} (h : |r - 16 / 9| ≤ 5 / 100) :
    classifyAspect r = "16:9" := by
  rw [abs_le] at h
  obtain ⟨h1, h2⟩ := h
  simp only [classifyAspect]
  split_ifs with hA hB
  · exfalso
    linarith [hA.2]
  · rfl
  · exact absurd ⟨by linarith, by linarith⟩ hB

/-- A ratio in neither tolerance band classifies as "other". -/
theorem classifyAspect_other {r : ℚ} (h9 : ¬ |r - 9 / 16| ≤ 5 / 100)
    (h16 : ¬ |r - 16 / 9| ≤ 5 / 100) : classifyAspect r = "other" := by
  simp only [classifyAspect]
  split_ifs with hA hB
  · exact absurd (abs_le.mpr ⟨by linarith [hA.1], by linarith [hA.2]⟩) h9
  · exact absurd (abs_le.mpr ⟨by linarith [hB.1], by linarith [hB.2]⟩) h16
  · rfl

/-- The presign transform emits no record-store update: its trace
holds presign calls only. -/
theorem dbSigned_no_dbUpdate (pF : String → String → Nat → Option String)
    (v x : Video) : Ev.dbUpdate x ∉ (dbVideoToSignedVideo pF v).2 := by
  cases hu : v.videoURL with
  | none => simp [dbVideoToSignedVideo, hu]
  | some url =>
    rcases hs : splitRef url with _ | ⟨b, _ | ⟨k, _ | ⟨c, t⟩⟩⟩
    · simp [dbVideoToSignedVideo, hu, hs]
    · simp [dbVideoToSignedVideo, hu, hs]
    · cases hp : pF b k 10 with
      | none => simp [dbVideoToSignedVideo, generatePresignedURL, hu, hs, hp]
      | some u => simp [dbVideoToSignedVideo, generatePresignedURL, hu, hs, hp]
    · simp [dbVideoToSignedVideo, hu, hs]

/-- Appending the ".processing" suffix changes the path. -/
theorem append_processing_ne (s : String) : s ++ ".processing" ≠ s := by
  intro h
  have hd : s.data ++ (".processing").data = s.data := by
    rw [← data_append, h]
  have hlen := congrArg List.length hd
  rw [List.length_append] at hlen
  have h11 : (".processing").data.length = 11 := rfl
  rw [h11] at hlen
  omega

/-- The concrete 9x16 geometry classifies as "9:16". -/
theorem classify916 :
    classifyAspect (((9 : Int) : ℚ) / ((16 : Int) : ℚ)) = "9:16" := by
  have he : (((9 : Int) : ℚ) / ((16 : Int) : ℚ)) = 9 / 16 := by norm_num
  rw [he]
  exact classifyAspect_portrait (by rw [abs_le]; norm_num)

/-- Full evaluation of the video handler on a request in which every
collaborator succeeds: the record store receives exactly the fetched
record with `videoURL` set to the encoded composite reference, the
object goes to S3 under the derived key, the reference is presigned
for 10 minutes, the response carries the presigned URL, and both the
staged file and the remux output are removed. -/
theorem handlerUploadVideo_eval (cfg : Config) (env : VideoEnv)
    (videoID userID : Nat) (tok tempName url key : String) (video : Video)
    (w h : Int) (n : Nat)
    (h1 : env.videoIDParse = some videoID) (h2 : env.bearerToken = some tok)
    (h3 : env.jwtUserID = some userID) (h4 : env.getVideo = some video)
    (h5 : video.userID = userID) (h6 : env.formFile = true)
    (h7 : parseMediaType env.contentType = some "video/mp4")
    (h8 : env.tempName = some tempName) (h9 : env.copyOk = true)
    (h10 : env.seekOk = true) (h11 : env.probe = .ok w h) (h12 : ¬ h = 0)
    (h13 : env.remuxRunOk = true) (h14 : env.remuxOut = some n) (hn : ¬ n = 0)
    (h15 : env.openOk = true) (h16 : env.putOk = true) (h17 : env.updateOk = true)
    (hkey : key = filepathJoin (aspectDirectory (classifyAspect ((w : ℚ) / (h : ℚ))))
      env.assetPath)
    (hbucket : ',' ∉ cfg.s3Bucket.data) (hpath : ',' ∉ env.assetPath.data)
    (hsign : cfg.presignF cfg.s3Bucket key 10 = some url) :
    handlerUploadVideo cfg env =
      (.okVideo { video with videoURL := some url },
        [Ev.dbGet videoID, Ev.formRead, Ev.createLocal tempName,
         Ev.writeLocal tempName, Ev.createLocal (tempName ++ ".processing"),
         Ev.s3Put cfg.s3Bucket key "video/mp4",
         Ev.dbUpdate { video with videoURL := some (encodeRef cfg.s3Bucket key) },
         Ev.presign cfg.s3Bucket key 10,
         Ev.removeLocal (tempName ++ ".processing"), Ev.removeLocal tempName]) := by
  have hkc : ',' ∉ key.data := by
    rw [hkey]
    exact comma_not_mem_join (comma_not_mem_aspectDirectory _) hpath
  have hsplit : splitRef (encodeRef cfg.s3Bucket key) = [cfg.s3Bucket, key] :=
    splitRef_encodeRef hbucket hkc
  simp [handlerUploadVideo, h1, h2, h3, h4, h5, h6, h7, h8, h9, h10, h11, h12, h13,
    h14, hn, h15, h16, h17, ← hkey, getVideoAspectRatio, processVideoForFastStart,
    dbVideoToSignedVideo, generatePresignedURL, hsplit, hsign]

/-- C2: for every bucket string containing no comma and every key
string containing no comma, decoding the encoded composite reference
"bucket,key" returns the original pair. -/
theorem c2_theorem (bucket key : String) (hb : ',' ∉ bucket.data)
    (hk : ',' ∉ key.data) :
    decodeRef (encodeRef bucket key) = some (bucket, key) := by
  simp [decodeRef, splitRef_encodeRef hb hk]

/-- Witness for C2 at a concrete comma-free bucket and key. -/
theorem c2_witness :
    decodeRef (encodeRef "tubely-bucket" "portrait/abc.mp4") =
      some ("tubely-bucket", "portrait/abc.mp4") :=
  c2_theorem "tubely-bucket" "portrait/abc.mp4" (by decide) (by decide)

/-- C3 counterexample: the string "," splits into two empty segments,
and decode accepts it instead of failing with a format error; the
presign transform then happily presigns the empty bucket and key. -/
theorem c3_counterexample :
    decodeRef "," = some ("", "") ∧
    (dbVideoToSignedVideo (fun _ _ _ => some "signed-url")
        { id := 1, userID := 1, thumbnailURL := none, videoURL := some ","
          updatedAt := 0 }).1 =
      .ok { id := 1, userID := 1, thumbnailURL := none
            videoURL := some "signed-url", updatedAt := 0 } :=
  ⟨rfl, rfl⟩

/-- C3 (amended): decoding a stored composite reference fails with the
format error exactly when the comma-split yields a number of segments
other than two — emptiness of the segments is not checked; in
particular every comma-free string fails, and the format error of
`dbVideoToSignedVideo` occurs exactly when decode fails. -/
theorem c3_theorem (s : String) (v : Video)
    (pF : String → String → Nat → Option String) (url : String) :
    (decodeRef s = none ↔ (splitRef s).length ≠ 2) ∧
    (',' ∉ s.data → decodeRef s = none) ∧
    (v.videoURL = some url →
      ((dbVideoToSignedVideo pF v).1 = .error (.badFormat url) ↔
        decodeRef url = none)) := by
  refine ⟨?_, ?_, ?_⟩
  · rcases h : splitRef s with _ | ⟨a, _ | ⟨b, _ | ⟨c, t⟩⟩⟩ <;> simp [decodeRef, h]
  · intro hnc
    have hg : goSplit ',' s.data = [s.data] := goSplit_eq_of_not_mem hnc
    simp [decodeRef, splitRef, hg]
  · intro hu
    rcases h : splitRef url with _ | ⟨a, _ | ⟨b, _ | ⟨c, t⟩⟩⟩
    · simp [dbVideoToSignedVideo, hu, h, decodeRef]
    · simp [dbVideoToSignedVideo, hu, h, decodeRef]
    · cases hp : pF a b 10 with
      | none => simp [dbVideoToSignedVideo, generatePresignedURL, hu, h, hp, decodeRef]
      | some u => simp [dbVideoToSignedVideo, generatePresignedURL, hu, h, hp, decodeRef]
    · simp [dbVideoToSignedVideo, hu, h, decodeRef]

/-- Witness for C3 at a concrete comma-free string. -/
theorem c3_witness : decodeRef "no-comma-here" = none :=
  ( c3_theorem "no-comma-here" video0 (fun _ _ _ => none) "").2.1 (by decide)

/-- C4: with a non-zero height the classifier returns the class of the
exact rational ratio width/height; a ratio within 0.05 of 9/16 maps to
the portrait bucket, within 0.05 of 16/9 to landscape, anything else to
other; the ratios 0.5625, 1.7778 and 1.0 map to portrait, landscape
and other respectively; a zero height is an error. -/
theorem c4_theorem (width height : Int) (r : ℚ) :
    (height ≠ 0 →
      getVideoAspectRatio (.ok width height) =
        .ok (classifyAspect ((width : ℚ) / (height : ℚ)))) ∧
    (|r - 9 / 16| ≤ 5 / 100 → aspectDirectory (classifyAspect r) = "portrait") ∧
    (|r - 16 / 9| ≤ 5 / 100 → aspectDirectory (classifyAspect r) = "landscape") ∧
    (¬ |r - 9 / 16| ≤ 5 / 100 → ¬ |r - 16 / 9| ≤ 5 / 100 →
      aspectDirectory (classifyAspect r) = "other") ∧
    aspectDirectory (classifyAspect (9 / 16 : ℚ)) = "portrait" ∧
    aspectDirectory (classifyAspect (17778 / 10000 : ℚ)) = "landscape" ∧
    aspectDirectory (classifyAspect (1 : ℚ)) = "other" ∧
    getVideoAspectRatio (.ok width 0) =
      .error "video height is zero, cannot determine aspect ratio" := by
  refine ⟨?_, ?_, ?_, ?_, ?_, ?_, ?_, ?_⟩
  · intro h0
    simp [getVideoAspectRatio, h0]
  · intro h
    rw [classifyAspect_portrait h]
    decide
  · intro h
    rw [classifyAspect_landscape h]
    decide
  · intro h9 h16
    rw [classifyAspect_other h9 h16]
    decide
  · rw [classifyAspect_portrait (by rw [abs_le]; norm_num)]
    decide
  · rw [classifyAspect_landscape (by rw [abs_le]; norm_num)]
    decide
  · rw [classifyAspect_other (by rw [abs_le]; norm_num) (by rw [abs_le]; norm_num)]
    decide
  · simp [getVideoAspectRatio]

/-- Witness for C4 at the concrete 9x16 geometry. -/
theorem c4_witness :
    getVideoAspectRatio (.ok 9 16) =
      .ok (classifyAspect (((9 : Int) : ℚ) / ((16 : Int) : ℚ))) :=
  ( c4_theorem 9 16 0).1 (by decide)

/-- C8: the remuxer succeeds exactly when the process exits
successfully and the output file exists with non-zero size, the
success value being the ".processing" path; each of the three failure
causes yields its own distinct error, and the process-failure error
carries the captured error stream in its rendered detail. -/
theorem c8_theorem (inputFilePath stderr execErr statErr : String)
    (runOk : Bool) (outSize : Option Nat) :
    ((∃ p, processVideoForFastStart inputFilePath runOk stderr execErr statErr
        outSize = .ok p) ↔
      (runOk = true ∧ ∃ n, outSize = some n ∧ n ≠ 0)) ∧
    (∀ p, processVideoForFastStart inputFilePath runOk stderr execErr statErr
        outSize = .ok p → p = inputFilePath ++ ".processing") ∧
    (runOk = false →
      processVideoForFastStart inputFilePath runOk stderr execErr statErr
        outSize = .error (.processFailed stderr execErr)) ∧
    (runOk = true → outSize = none →
      processVideoForFastStart inputFilePath runOk stderr execErr statErr
        outSize = .error (.statFailed statErr)) ∧
    (runOk = true → outSize = some 0 →
      processVideoForFastStart inputFilePath runOk stderr execErr statErr
        outSize = .error .emptyOutput) ∧
    ((RemuxError.processFailed stderr execErr).render =
      "could not process video: " ++ stderr ++ ", " ++ execErr) ∧
    (∀ s e t, RemuxError.processFailed s e ≠ .statFailed t ∧
      RemuxError.processFailed s e ≠ .emptyOutput ∧
      (RemuxError.statFailed t : RemuxError) ≠ .emptyOutput) := by
  cases runOk
  · rcases outSize with _ | n <;> simp [processVideoForFastStart, RemuxError.render]
  · rcases outSize with _ | n
    · simp [processVideoForFastStart, RemuxError.render]
    · by_cases hn : n = 0 <;> simp [processVideoForFastStart, RemuxError.render, hn]

/-- Witness for C8 at a concrete failing run with captured
diagnostics. -/
theorem c8_witness :
    processVideoForFastStart "in.mp4" false "diag" "exit status 1" ""
      (some 3) = .error (.processFailed "diag" "exit status 1") :=
  ( c8_theorem "in.mp4" "diag" "exit status 1" "" false (some 3)).2.2.1 rfl

/-- C10: the thumbnail gate accepts exactly the two raw header strings
"image/jpeg" and "image/png", so a parameterized image header is
rejected, while the video gate parses the header and accepts
"video/mp4" with parameters. -/
theorem c10_theorem (ct : String) :
    (thumbnailContentTypeAccepted ct = true ↔
      ct = "image/jpeg" ∨ ct = "image/png") ∧
    thumbnailContentTypeAccepted "image/png; charset=utf-8" = false ∧
    videoContentTypeAccepted "video/mp4; charset=utf-8" = true ∧
    videoContentTypeAccepted "video/mp4" = true := by
  refine ⟨?_, by decide, by decide, by decide⟩
  by_cases h0 : ct = ""
  · subst h0
    decide
  · by_cases h1 : ct = "image/jpeg"
    · subst h1
      decide
    · by_cases h2 : ct = "image/png"
      · subst h2
        decide
      · simp [thumbnailContentTypeAccepted, h0, h1, h2]

/-- Witness for C10 at a concrete accepted thumbnail type. -/
theorem c10_witness : thumbnailContentTypeAccepted "image/jpeg" = true :=
  ( c10_theorem "image/jpeg").1.mpr (Or.inl rfl)

/-- C1 counterexample: at a request where everything succeeds except
ownership, the thumbnail handler rejects with the unauthorized error,
but the file has already been written to durable storage — the write
happens before the record fetch and ownership check, contradicting the
claimed ordering. -/
theorem c1_counterexample :
    (handlerUploadThumbnail cfgEx thumbEnvNonOwner).1 =
      .unauthorized "User is not the owner of the video" ∧
    Ev.writeLocal "assets/abc.png" ∈
      (handlerUploadThumbnail cfgEx thumbEnvNonOwner).2 := by
  decide

/-- C1 (amended): in the thumbnail handler the ownership check occurs
after the file bytes are written to durable storage but before any
record mutation, so a non-owner upload is rejected with the
unauthorized error with no record-store update — yet with the file
already persisted. -/
theorem c1_theorem (cfg : Config) (env : ThumbEnv) (videoID userID : Nat)
    (tok : String) (video : Video)
    (h1 : env.videoIDParse = some videoID) (h2 : env.bearerToken = some tok)
    (h3 : env.jwtUserID = some userID) (h4 : env.parseForm = true)
    (h5 : env.formFile = true)
    (h6 : env.contentType = "image/png" ∨ env.contentType = "image/jpeg")
    (h7 : env.createOk = true) (h8 : env.copyOk = true)
    (h9 : env.getVideo = some video) (h10 : video.userID ≠ userID) :
    (handlerUploadThumbnail cfg env).1 =
      .unauthorized "User is not the owner of the video" ∧
    (∀ v, Ev.dbUpdate v ∉ (handlerUploadThumbnail cfg env).2) ∧
    Ev.writeLocal (cfg.assetDiskPath env.assetPath) ∈
      (handlerUploadThumbnail cfg env).2 := by
  rcases h6 with h6 | h6 <;>
    simp [handlerUploadThumbnail, h1, h2, h3, h4, h5, h6, h7, h8, h9, h10]

/-- Witness for C1 at the concrete non-owner request. -/
theorem c1_witness :
    (handlerUploadThumbnail cfgEx thumbEnvNonOwner).1 =
      .unauthorized "User is not the owner of the video" ∧
    (∀ v, Ev.dbUpdate v ∉ (handlerUploadThumbnail cfgEx thumbEnvNonOwner).2) ∧
    Ev.writeLocal (cfgEx.assetDiskPath thumbEnvNonOwner.assetPath) ∈
      (handlerUploadThumbnail cfgEx thumbEnvNonOwner).2 :=
  c1_theorem cfgEx thumbEnvNonOwner 7 2 "tok" video0 rfl rfl rfl rfl rfl
    (Or.inl rfl) rfl rfl rfl (by decide)

/-- C7: in the video upload handler the record fetch and ownership
comparison precede the multipart read and staging, so a non-owner
request is rejected with the unauthorized error, its whole trace is the
single record fetch, the body is never read, and no local file is ever
created. -/
theorem c7_theorem (cfg : Config) (env : VideoEnv) (videoID userID : Nat)
    (tok : String) (video : Video)
    (h1 : env.videoIDParse = some videoID) (h2 : env.bearerToken = some tok)
    (h3 : env.jwtUserID = some userID) (h4 : env.getVideo = some video)
    (h5 : video.userID ≠ userID) :
    (handlerUploadVideo cfg env).1 =
      .unauthorized "User is not the owner of the video" ∧
    (handlerUploadVideo cfg env).2 = [Ev.dbGet videoID] ∧
    Ev.formRead ∉ (handlerUploadVideo cfg env).2 ∧
    (∀ p, Ev.createLocal p ∉ (handlerUploadVideo cfg env).2) := by
  simp [handlerUploadVideo, h1, h2, h3, h4, h5]

/-- Witness for C7 at the concrete non-owner request. -/
theorem c7_witness :
    (handlerUploadVideo cfgEx videoEnvNonOwner).1 =
      .unauthorized "User is not the owner of the video" ∧
    (handlerUploadVideo cfgEx videoEnvNonOwner).2 = [Ev.dbGet 7] ∧
    Ev.formRead ∉ (handlerUploadVideo cfgEx videoEnvNonOwner).2 ∧
    (∀ p, Ev.createLocal p ∉ (handlerUploadVideo cfgEx videoEnvNonOwner).2) :=
  c7_theorem cfgEx videoEnvNonOwner 7 2 "tok" video0 rfl rfl rfl rfl (by decide)

/-- C5: on a successful video upload the record-store update receives
exactly the fetched record with `videoURL` set to the composite string
"bucket,key", the response record instead carries the freshly
presigned URL obtained with a 10-minute expiry, and the presign
transform itself never emits a record-store write. -/
theorem c5_theorem (cfg : Config) (env : VideoEnv) (videoID userID : Nat)
    (tok tempName url key : String) (video : Video) (w h : Int) (n : Nat)
    (h1 : env.videoIDParse = some videoID) (h2 : env.bearerToken = some tok)
    (h3 : env.jwtUserID = some userID) (h4 : env.getVideo = some video)
    (h5 : video.userID = userID) (h6 : env.formFile = true)
    (h7 : parseMediaType env.contentType = some "video/mp4")
    (h8 : env.tempName = some tempName) (h9 : env.copyOk = true)
    (h10 : env.seekOk = true) (h11 : env.probe = .ok w h) (h12 : ¬ h = 0)
    (h13 : env.remuxRunOk = true) (h14 : env.remuxOut = some n) (hn : ¬ n = 0)
    (h15 : env.openOk = true) (h16 : env.putOk = true) (h17 : env.updateOk = true)
    (hkey : key = filepathJoin (aspectDirectory (classifyAspect ((w : ℚ) / (h : ℚ))))
      env.assetPath)
    (hbucket : ',' ∉ cfg.s3Bucket.data) (hpath : ',' ∉ env.assetPath.data)
    (hsign : cfg.presignF cfg.s3Bucket key 10 = some url) :
    Ev.dbUpdate { video with videoURL := some (cfg.s3Bucket ++ "," ++ key) } ∈
      (handlerUploadVideo cfg env).2 ∧
    (handlerUploadVideo cfg env).1 = .okVideo { video with videoURL := some url } ∧
    Ev.presign cfg.s3Bucket key 10 ∈ (handlerUploadVideo cfg env).2 ∧
    (∀ pF v x, Ev.dbUpdate x ∉ (dbVideoToSignedVideo pF v).2) := by
  rw [handlerUploadVideo_eval cfg env videoID userID tok tempName url key video w h n
    h1 h2 h3 h4 h5 h6 h7 h8 h9 h10 h11 h12 h13 h14 hn h15 h16 h17 hkey hbucket
    hpath hsign]
  refine ⟨?_, rfl, ?_, fun pF v x => dbSigned_no_dbUpdate pF v x⟩
  · simp [encodeRef]
  · simp

/-- Witness for C5 at the concrete all-success request. -/
theorem c5_witness :
    Ev.dbUpdate { video0 with
        videoURL := some ("tubely-bucket" ++ "," ++ "portrait/abc.mp4") } ∈
      (handlerUploadVideo cfgEx videoEnvOk).2 ∧
    (handlerUploadVideo cfgEx videoEnvOk).1 =
      .okVideo { video0 with videoURL := some "signed-url" } ∧
    Ev.presign "tubely-bucket" "portrait/abc.mp4" 10 ∈
      (handlerUploadVideo cfgEx videoEnvOk).2 ∧
    (∀ pF v x, Ev.dbUpdate x ∉ (dbVideoToSignedVideo pF v).2) :=
  c5_theorem cfgEx videoEnvOk 7 1 "tok" "tmp-upload.mp4" "signed-url"
    "portrait/abc.mp4" video0 9 16 5 rfl rfl rfl rfl rfl rfl (by decide) rfl rfl rfl
    rfl (by decide) rfl rfl (by decide) rfl rfl rfl (by rw [classify916]; decide)
    (by decide) (by decide) rfl

/-- C6 counterexample: on a successful video upload the record passed
to the record-store update keeps the fetched record's updatedAt of 42
— the video path does not set updatedAt before persisting. -/
theorem c6_counterexample :
    Ev.dbUpdate
        { id := 7, userID := 1, thumbnailURL := none,
          videoURL := some "tubely-bucket,portrait/abc.mp4", updatedAt := 42 } ∈
      (handlerUploadVideo cfgEx videoEnvOk).2 ∧
    (∀ v, Ev.dbUpdate v ∈ (handlerUploadVideo cfgEx videoEnvOk).2 →
      v.updatedAt = 42) := by
  rw [handlerUploadVideo_eval cfgEx videoEnvOk 7 1 "tok" "tmp-upload.mp4"
    "signed-url" "portrait/abc.mp4" video0 9 16 5 rfl rfl rfl rfl rfl rfl (by decide)
    rfl rfl rfl rfl (by decide) rfl rfl (by decide) rfl rfl rfl
    (by rw [classify916]; decide) (by decide) (by decide) rfl]
  constructor
  · decide
  · intro v hv
    simp [video0] at hv
    subst hv
    rfl

/-- C6 (amended): the thumbnail path sets updatedAt to the current
time on the record it persists; the video path does not — the record
it hands to the record-store update differs from the fetched record
only in videoURL, leaving updatedAt unchanged. -/
theorem c6_theorem (cfg : Config) (envT : ThumbEnv) (envV : VideoEnv)
    (videoID userID : Nat) (tok tempName url key : String) (video : Video)
    (w h : Int) (n : Nat) (v : Video)
    (h1 : envV.videoIDParse = some videoID) (h2 : envV.bearerToken = some tok)
    (h3 : envV.jwtUserID = some userID) (h4 : envV.getVideo = some video)
    (h5 : video.userID = userID) (h6 : envV.formFile = true)
    (h7 : parseMediaType envV.contentType = some "video/mp4")
    (h8 : envV.tempName = some tempName) (h9 : envV.copyOk = true)
    (h10 : envV.seekOk = true) (h11 : envV.probe = .ok w h) (h12 : ¬ h = 0)
    (h13 : envV.remuxRunOk = true) (h14 : envV.remuxOut = some n) (hn : ¬ n = 0)
    (h15 : envV.openOk = true) (h16 : envV.putOk = true) (h17 : envV.updateOk = true)
    (hkey : key = filepathJoin (aspectDirectory (classifyAspect ((w : ℚ) / (h : ℚ))))
      envV.assetPath)
    (hbucket : ',' ∉ cfg.s3Bucket.data) (hpath : ',' ∉ envV.assetPath.data)
    (hsign : cfg.presignF cfg.s3Bucket key 10 = some url) :
    (Ev.dbUpdate v ∈ (handlerUploadThumbnail cfg envT).2 → v.updatedAt = envT.now) ∧
    (∀ x, Ev.dbUpdate x ∈ (handlerUploadVideo cfg envV).2 →
      x = { video with videoURL := some (cfg.s3Bucket ++ "," ++ key) } ∧
      x.updatedAt = video.updatedAt) := by
  constructor
  · intro hmem
    unfold handlerUploadThumbnail at hmem
    repeat' split at hmem
    all_goals
      by_cases hct1 : envT.contentType = "" <;>
        by_cases hct2 : ¬ envT.contentType = "image/jpeg" ∧
          ¬ envT.contentType = "image/png" <;>
        simp_all
  · intro x hx
    rw [handlerUploadVideo_eval cfg envV videoID userID tok tempName url key video
      w h n h1 h2 h3 h4 h5 h6 h7 h8 h9 h10 h11 h12 h13 h14 hn h15 h16 h17 hkey
      hbucket hpath hsign] at hx
    simp [encodeRef] at hx
    subst hx
    exact ⟨rfl, rfl⟩

/-- Witness for C6: the record the thumbnail path persists carries the
request's timestamp. -/
theorem c6_witness :
    ({ video0 with
        thumbnailURL := some "http://localhost:8091/assets/abc.png",
        updatedAt := 99 } : Video).updatedAt = thumbEnvOwner.now :=
  ( c6_theorem cfgEx thumbEnvOwner videoEnvOk 7 1 "tok" "tmp-upload.mp4" "signed-url"
    "portrait/abc.mp4" video0 9 16 5
    { video0 with
      thumbnailURL := some "http://localhost:8091/assets/abc.png",
      updatedAt := 99 }
    rfl rfl rfl rfl rfl rfl (by decide) rfl rfl rfl rfl (by decide) rfl rfl
    (by decide) rfl rfl rfl (by rw [classify916]; decide) (by decide) (by decide)
    rfl).1 (by decide)

/-- C9 counterexample: when ffmpeg exits successfully but leaves an
empty output file, the remux step fails, the handler returns before
registering the deferred removal of the ".processing" file, and that
file remains on local storage after the request completes. -/
theorem c9_counterexample :
    (handlerUploadVideo cfgEx videoEnvRemuxEmpty).1 =
      .internalError "could not process video for fast start" ∧
    fileRemains (handlerUploadVideo cfgEx videoEnvRemuxEmpty).2
      ("tmp-upload.mp4" ++ ".processing") := by
  have hga : getVideoAspectRatio (ProbeResult.ok 9 16) = Except.ok "9:16" := by
    simp only [getVideoAspectRatio]
    rw [if_neg (by decide), classify916]
  have h7 : parseMediaType "video/mp4" = some "video/mp4" := by
    decide
  have heval : handlerUploadVideo cfgEx videoEnvRemuxEmpty =
      (.internalError "could not process video for fast start",
        [Ev.dbGet 7, Ev.formRead, Ev.createLocal "tmp-upload.mp4",
         Ev.writeLocal "tmp-upload.mp4",
         Ev.createLocal ("tmp-upload.mp4" ++ ".processing"),
         Ev.removeLocal "tmp-upload.mp4"]) := by
    simp [handlerUploadVideo, videoEnvRemuxEmpty, videoEnvOk, cfgEx, video0, h7,
      hga, processVideoForFastStart]
  rw [heval]
  exact ⟨rfl, ⟨by decide, by decide⟩⟩

/-- C9 (amended): once the remux step succeeds, both the ".processing"
output and the staged temp file are removed on every subsequent exit
path (open failure, object-store failure, record-update failure,
presign failure, success); but when the remux step itself fails, an
output file the remux process created is not removed and remains on
local storage. -/
theorem c9_theorem (cfg : Config) (env : VideoEnv) (videoID userID : Nat)
    (tok tempName : String) (video : Video) (w h : Int) (n m : Nat)
    (h1 : env.videoIDParse = some videoID) (h2 : env.bearerToken = some tok)
    (h3 : env.jwtUserID = some userID) (h4 : env.getVideo = some video)
    (h5 : video.userID = userID) (h6 : env.formFile = true)
    (h7 : parseMediaType env.contentType = some "video/mp4")
    (h8 : env.tempName = some tempName) (h9 : env.copyOk = true)
    (h10 : env.seekOk = true) (h11 : env.probe = .ok w h) (h12 : ¬ h = 0) :
    (env.remuxRunOk = true → env.remuxOut = some n → ¬ n = 0 →
      ¬ fileRemains (handlerUploadVideo cfg env).2 (tempName ++ ".processing") ∧
      ¬ fileRemains (handlerUploadVideo cfg env).2 tempName) ∧
    (env.remuxOut = some m → (env.remuxRunOk = false ∨ m = 0) →
      fileRemains (handlerUploadVideo cfg env).2 (tempName ++ ".processing")) := by
  constructor
  · intro h13 h14 hn
    have hrem : Ev.removeLocal (tempName ++ ".processing") ∈
          (handlerUploadVideo cfg env).2 ∧
        Ev.removeLocal tempName ∈ (handlerUploadVideo cfg env).2 := by
      constructor <;>
        (cases ho : env.openOk <;> cases hput : env.putOk <;>
          cases hupd : env.updateOk <;>
          simp [handlerUploadVideo, h1, h2, h3, h4, h5, h6, h7, h8, h9, h10, h11,
            h12, h13, h14, hn, ho, hput, hupd, getVideoAspectRatio,
            processVideoForFastStart] <;>
          split <;> simp_all)
    exact ⟨fun hfr => hfr.2 hrem.1, fun hfr => hfr.2 hrem.2⟩
  · intro h14m hfail
    rcases hfail with hrun | hm0
    · simp [handlerUploadVideo, h1, h2, h3, h4, h5, h6, h7, h8, h9, h10, h11, h12,
        hrun, h14m, getVideoAspectRatio, processVideoForFastStart, fileRemains,
        append_processing_ne tempName]
    · subst hm0
      cases hrun : env.remuxRunOk <;>
        simp [handlerUploadVideo, h1, h2, h3, h4, h5, h6, h7, h8, h9, h10, h11, h12,
          hrun, h14m, getVideoAspectRatio, processVideoForFastStart, fileRemains,
          append_processing_ne tempName]

/-- Witness for C9: with a successful remux and a failing S3 upload,
neither the ".processing" file nor the staged file remains. -/
theorem c9_witness :
    ¬ fileRemains (handlerUploadVideo cfgEx videoEnvPutFail).2
        ("tmp-upload.mp4" ++ ".processing") ∧
    ¬ fileRemains (handlerUploadVideo cfgEx videoEnvPutFail).2 "tmp-upload.mp4" :=
  ( c9_theorem cfgEx videoEnvPutFail 7 1 "tok" "tmp-upload.mp4" video0 9 16 5 0
    rfl rfl rfl rfl rfl rfl (by decide) rfl rfl rfl rfl (by decide)).1
    rfl rfl (by decide)

end Tubely
